import Mathlib

/-!
Verification of the provider-driver core of the repository
(`packages/shared/src/agent/backend/internal/drivers/pi.ts` and the
providers settings page).  Each TypeScript function the claims touch is
shallowly embedded as a total Lean function: network and subprocess
outcomes become explicit parameters, the process-wide token environment
variable becomes explicit `Option String` state, and thrown errors become
`Except` values.
-/

namespace PiDriver

/-- Character-list prefix test, modelling byte-wise string matching. -/
def hasPrefixChars : List Char → List Char → Bool
  | [], _ => true
  | _ :: _, [] => false
  | p :: ps, c :: cs => (p = c) && hasPrefixChars ps cs

/-- Substring search over character lists, modelling JS `String.includes`. -/
def hasSubChars (pat : List Char) : List Char → Bool
  | [] => hasPrefixChars pat []
  | c :: cs => hasPrefixChars pat (c :: cs) || hasSubChars pat cs

/-- JS `s.includes(pat)`. -/
def strContainsSub (s pat : String) : Bool :=
  hasSubChars pat.data s.data

/-- JS `s.endsWith(pat)`. -/
def strEndsWith (s pat : String) : Bool :=
  hasPrefixChars pat.data.reverse s.data.reverse

/-- JS `s.trim()`: strip leading and trailing whitespace. -/
def jsTrim (s : String) : String :=
  String.mk (((s.data.dropWhile Char.isWhitespace).reverse.dropWhile Char.isWhitespace).reverse)

/-- JS `s.replace(/\/+$/, '')`: strip trailing slashes. -/
def stripTrailingSlashes (s : String) : String :=
  String.mk ((s.data.reverse.dropWhile (fun c => c = '/')).reverse)

/-- Result type of `probeConnection` / `testConnection` /
`validateStoredConnection`: `{ success: boolean; error?: string }`. -/
structure ValidationResult where
  success : Bool
  error : Option String
deriving DecidableEq, Repr

/-- Arguments of `probeConnection`. -/
structure ProbeArgs where
  apiKey : String
  baseUrl : Option String
  timeoutMs : Nat
deriving DecidableEq, Repr

/-- Outcome of the single `fetch` performed by `probeConnection`: either an
HTTP response (status and, for the 403 branch, the text body) or a thrown
transport error with its message.  A timeout abort surfaces as a thrown
error whose message mentions `abort`. -/
inductive FetchOutcome where
  | response (status : Nat) (body : String)
  | failure (message : String)
deriving DecidableEq, Repr

/-- `'https://api.pi-ai.workers.dev'`, the provider default endpoint. -/
def defaultPiBase : String := "https://api.pi-ai.workers.dev"

/-- `const effectiveBase = (baseUrl ?? '').trim() || 'https://api.pi-ai.workers.dev';` -/
def effectiveBase (baseUrl : Option String) : String :=
  let t := jsTrim (baseUrl.getD "")
  if t = "" then defaultPiBase else t

/-- `const cleanBase = effectiveBase.replace(/\/+$/, '');` then
`cleanBase.endsWith('/v1') ? cleanBase + '/messages' : cleanBase + '/v1/messages'`. -/
def probeUrl (baseUrl : Option String) : String :=
  let cleanBase := stripTrailingSlashes (effectiveBase baseUrl)
  if strEndsWith cleanBase "/v1" then cleanBase ++ "/messages" else cleanBase ++ "/v1/messages"

/-- The invalid-credential message returned for 401 and plain 403. -/
def invalidKeyMsg : String := "无效的 API 密钥或未授权。请检查您的 API 密钥。"

/-- `body.includes('Just a moment') || body.includes('challenge-platform') || body.includes('cf-')`. -/
def isChallengeBody (body : String) : Bool :=
  strContainsSub body "Just a moment" || strContainsSub body "challenge-platform" ||
    strContainsSub body "cf-"

/-- `msg.includes('abort') || msg.includes('AbortError')`. -/
def isAbortMessage (msg : String) : Bool :=
  strContainsSub msg "abort" || strContainsSub msg "AbortError"

/-- The timeout error message built in the catch branch. -/
def timeoutMessage (baseUrl : Option String) : String :=
  "连接测试超时。请检查 " ++ effectiveBase baseUrl ++ " 是否可访问，或检查代理设置。"

/-- The generic transport error message built in the catch branch. -/
def transportErrorMessage (baseUrl : Option String) (msg : String) : String :=
  "无法连接到 " ++ effectiveBase baseUrl ++ ": " ++ msg

/-- `probeConnection` from `pi.ts`, as a function of the fetch outcome.
Totality of this function is the embedding of "never throws - always a
terminal `ValidationResult`". -/
def probeConnection (args : ProbeArgs) (outcome : FetchOutcome) : ValidationResult :=
  match outcome with
  | .response status body =>
    if status = 401 then
      { success := false, error := some invalidKeyMsg }
    else if status = 403 then
      if isChallengeBody body then
        { success := true, error := none }
      else
        { success := false, error := some invalidKeyMsg }
    else
      { success := true, error := none }
  | .failure msg =>
    if isAbortMessage msg then
      { success := false, error := some (timeoutMessage args.baseUrl) }
    else
      { success := false, error := some (transportErrorMessage args.baseUrl msg) }

/-- `timeoutMs ?? 20000` in `piDriver.testConnection`: the timeout budget of
the interactive connection test. -/
def interactiveTestTimeout (timeoutMs : Option Nat) : Nat :=
  timeoutMs.getD 20000

/-- `piDriver.testConnection`: delegates to `probeConnection` with the
default 20000 ms budget when none is supplied. -/
def testConnectionArgs (apiKey : String) (baseUrl : Option String) (timeoutMs : Option Nat) :
    ProbeArgs :=
  { apiKey := apiKey, baseUrl := baseUrl, timeoutMs := interactiveTestTimeout timeoutMs }

/-! ## Copilot dynamic model listing (`fetchCopilotModels`) -/

/-- The `policy` field of a model entry returned by the Copilot API:
`{ state: string }`. -/
structure RemotePolicy where
  state : String
deriving DecidableEq, Repr

/-- A model entry returned by `client.listModels()`:
`{ id, name, supportedReasoningEfforts?, policy? }`. -/
structure RemoteModel where
  id : String
  name : String
  supportedReasoningEfforts : Option (List String)
  policy : Option RemotePolicy
deriving DecidableEq, Repr

/-- A `ModelDefinition` as produced by this driver (the fields set by
`fetchCopilotModels` and by the custom-endpoint upgrade).  `supportsThinking`
is `none` when the source object omits the field. -/
structure ModelDefinition where
  id : String
  name : String
  shortName : String
  description : String
  provider : String
  contextWindow : Nat
  supportsThinking : Option Bool
deriving DecidableEq, Repr

/-- The filter `m => !m.policy || m.policy.state === 'enabled'` applied to
the remote listing. -/
def keepModel (m : RemoteModel) : Bool :=
  match m.policy with
  | none => true
  | some p => p.state = "enabled"

/-- `!!(m.supportedReasoningEfforts && m.supportedReasoningEfforts.length > 0)`. -/
def reasoningFlag (m : RemoteModel) : Bool :=
  match m.supportedReasoningEfforts with
  | none => false
  | some l => decide (0 < l.length)

/-- The filter the claim about the Copilot listing describes, written from
its words: keep exactly the models whose policy state is not explicitly
`"disabled"` (for comparison with the source's `keepModel`). -/
def claimKeep (m : RemoteModel) : Bool :=
  match m.policy with
  | none => true
  | some p => !(p.state = "disabled")

/-- The map each surviving remote model goes through in `fetchCopilotModels`. -/
def toModelDefinition (m : RemoteModel) : ModelDefinition :=
  { id := m.id
    name := m.name
    shortName := m.name
    description := ""
    provider := "pi"
    contextWindow := 200000
    supportsThinking := some (reasoningFlag m) }

/-- `process.env.COPILOT_GITHUB_TOKEN = prevToken` when a previous value
existed, `delete process.env.COPILOT_GITHUB_TOKEN` otherwise (the
`restoreEnv` closure).  The current variable state is overwritten either
way. -/
def restoreCopilotEnv (prevToken : Option String) (env : Option String) : Option String :=
  match prevToken, env with
  | some t, _ => some t
  | none, _ => none

/-- `fetchCopilotModels` from `pi.ts`, with explicit state passing for the
process-wide `COPILOT_GITHUB_TOKEN` environment variable (`env0` is its
value on entry) and explicit outcomes for the three awaited collaborator
calls (`client.start()`, `client.listModels()`, `client.stop()`; a timeout
race lost surfaces as an `error` outcome).  Returns the thrown-or-returned
result together with the final state of the environment variable. -/
def fetchCopilotModelsRun (accessToken : String) (env0 : Option String)
    (startResult : Except String Unit)
    (listResult : Except String (List RemoteModel))
    (stopResult : Except String Unit) :
    Except String (List ModelDefinition) × Option String :=
  let prevToken := env0
  let env1 : Option String := some accessToken
  match startResult with
  | .error e =>
    -- catch: restoreEnv(); try stop catch ignore; throw error
    let env2 := restoreCopilotEnv prevToken env1
    let _ := stopResult
    (.error e, env2)
  | .ok _ =>
    match listResult with
    | .error e =>
      let env2 := restoreCopilotEnv prevToken env1
      let _ := stopResult
      (.error e, env2)
    | .ok models =>
      -- try stop catch ignore; restoreEnv()
      let _ := stopResult
      let env2 := restoreCopilotEnv prevToken env1
      if models.isEmpty then
        (.error "No models returned from Copilot API.", env2)
      else
        let enabledModels := models.filter keepModel
        if enabledModels.isEmpty then
          (.error "No enabled models found. Enable models in your GitHub Copilot settings.", env2)
        else
          (.ok (enabledModels.map toModelDefinition), env2)

/-! ## `piDriver.fetchModels` -/

/-- A model entry on a stored connection: a bare identifier string or a
full model descriptor. -/
inductive ModelEntry where
  | str (s : String)
  | defn (d : ModelDefinition)
deriving DecidableEq, Repr

/-- The upgrade applied to each entry of a custom-endpoint connection's
model list: bare strings become full descriptors with a 128000-token
context window, descriptors pass through unchanged. -/
def upgradeEntry : ModelEntry → ModelDefinition
  | .str m =>
    { id := m, name := m, shortName := m, description := "Custom model",
      provider := "pi", contextWindow := 128000, supportsThinking := none }
  | .defn d => d

/-- The connection fields consulted by `piDriver.fetchModels`. -/
structure Connection where
  piAuthProvider : Option String
  baseUrl : Option String
  models : Option (List ModelEntry)
deriving DecidableEq, Repr

/-- The credential fields consulted by `piDriver.fetchModels`. -/
structure Credentials where
  oauthAccessToken : Option String
deriving DecidableEq, Repr

/-- JS truthiness of an optional string: `undefined` and `''` are falsy. -/
def optStrTruthy : Option String → Bool
  | none => false
  | some s => !(s = "")

/-- What `piDriver.fetchModels` does, as data.  `callCopilot` is the one
constructor that stands for network/subprocess work (the awaited
`fetchCopilotModels` call); `returnModels` is a pure successful return and
`throwNoModels` a thrown error. -/
inductive FetchAction where
  | callCopilot (accessToken : String)
  | returnModels (ms : List ModelDefinition)
  | throwNoModels (message : String)
deriving DecidableEq, Repr

/-- `piDriver.fetchModels` from `pi.ts`.  `registryModels` stands for the
static Pi SDK model registry lookup (`getPiModelsForAuthProvider` /
`getAllPiModels`, a pure collaborator outside this driver). -/
def fetchModels (conn : Connection) (creds : Credentials)
    (registryModels : List ModelDefinition) : FetchAction :=
  if conn.piAuthProvider = some "github-copilot" ∧ optStrTruthy creds.oauthAccessToken then
    .callCopilot (creds.oauthAccessToken.getD "")
  else if optStrTruthy conn.baseUrl then
    .returnModels ((conn.models.getD []).map upgradeEntry)
  else if registryModels.isEmpty then
    .throwNoModels ("No Pi models found for provider: " ++ conn.piAuthProvider.getD "all")
  else
    .returnModels registryModels

/-! ## `piDriver.validateStoredConnection` -/

/-- The connection fields consulted by `validateStoredConnection`. -/
structure StoredConnection where
  authType : String
  baseUrl : Option String
deriving DecidableEq, Repr

/-- What `validateStoredConnection` does, as data: either it finishes with
a `ValidationResult` without any network activity, or it issues the probe
request described by `probeCheck` (the only constructor standing for a
network call). -/
inductive ValidateAction where
  | finish (r : ValidationResult)
  | probeCheck (apiKey : String) (baseUrl : Option String) (timeoutMs : Nat)
deriving DecidableEq, Repr

/-- The credential-not-found message. -/
def credentialNotFoundMsg : String := "未找到 API 密钥"

/-- `piDriver.validateStoredConnection` from `pi.ts`.  `storedKey` is the
answer of `credentialManager.getLlmApiKey(connection.slug)` (`none` for a
null answer); `if (!apiKey)` also rejects an empty string. -/
def validateStoredConnection (conn : StoredConnection) (storedKey : Option String) :
    ValidateAction :=
  if conn.authType = "api_key" ∨ conn.authType = "api_key_with_endpoint" then
    match storedKey with
    | none => .finish { success := false, error := some credentialNotFoundMsg }
    | some k =>
      if k = "" then .finish { success := false, error := some credentialNotFoundMsg }
      else .probeCheck k conn.baseUrl 10000
  else
    .finish { success := true, error := none }

end PiDriver

namespace ProvidersSettings

open PiDriver

/-- JS `a || b` on optional strings (empty string is falsy). -/
def orTruthy (a b : Option String) : Option String :=
  match a with
  | some s => if s = "" then b else some s
  | none => b

/-- The connection fields consulted by `handleEdit` and
`getApiKeyMethodForConnection` in `ProvidersSettingsPage.tsx`. -/
structure ConnectionView where
  slug : String
  name : String
  baseUrl : Option String
  defaultModel : Option String
  piAuthProvider : Option String
  models : Option (List ModelEntry)
  providerType : Option String
  legacyType : Option String
deriving DecidableEq, Repr

/-- `typeof m === 'string' ? m : m.id` in the `handleEdit` model-string map. -/
def entryId : ModelEntry → String
  | .str s => s
  | .defn d => d.id

/-- JS `Array.join(', ')`. -/
def joinComma (l : List String) : String :=
  String.intercalate ", " l

/-- `connection.models?.map(...).join(', ') || connection.defaultModel || ''`
from `handleEdit` (an absent list, or a join that comes out empty, falls
back to the default model, then to the empty string). -/
def modelStrOf (conn : ConnectionView) : String :=
  let joined := match conn.models with
    | none => ""
    | some l => joinComma (l.map entryId)
  if joined = "" then
    match conn.defaultModel with
    | some d => d
    | none => ""
  else joined

/-- The `editInitialValues` record seeded by `handleEdit`. -/
structure EditInitialValues where
  apiKey : Option String
  name : String
  baseUrl : Option String
  connectionDefaultModel : String
  activePreset : Option String
deriving DecidableEq, Repr

/-- `getApiKeyMethodForConnection` from `ProvidersSettingsPage.tsx`:
`provider = conn.providerType || conn.type`, then `'pi_api_key'` for the
`pi` / `pi_compat` providers and `'anthropic_api_key'` otherwise. -/
def getApiKeyMethodForConnection (conn : ConnectionView) : String :=
  let provider := orTruthy conn.providerType conn.legacyType
  if provider = some "pi" ∨ provider = some "pi_compat" then "pi_api_key"
  else "anthropic_api_key"

/-- Everything `handleEdit` hands to the wizard: the seeded
`editInitialValues`, the slug passed to `openApiSetup` (edit mode), and
the method passed to `jumpToCredentials`. -/
structure HandleEditResult where
  editValues : EditInitialValues
  editingSlug : String
  method : String
deriving DecidableEq, Repr

/-- `handleEdit` from `ProvidersSettingsPage.tsx`.

`storedKey` is the answer of `window.electronAPI.getLlmConnectionApiKey`.
Modelled from the spec: that IPC handler is not part of the reviewed
source; per the spec's Credential Store interface
(`getCredential(slug) -> secret|null`) it yields the stored secret itself,
with `none` for a null answer or a thrown lookup error (the surrounding
`try { ... } catch { /* noop */ }` leaves `apiKey` undefined). -/
def handleEdit (conn : ConnectionView) (storedKey : Option String) : HandleEditResult :=
  { editValues :=
      { apiKey := storedKey
        name := conn.name
        baseUrl := conn.baseUrl
        connectionDefaultModel := modelStrOf conn
        activePreset :=
          match conn.piAuthProvider with
          | some p => if p = "" then none else some p
          | none => none }
    editingSlug := conn.slug
    method := getApiKeyMethodForConnection conn }

end ProvidersSettings

namespace PiDriver

/-! ## Substring lemmas for the probe error messages -/

theorem hasPrefixChars_self_append (pat r : List Char) :
    hasPrefixChars pat (pat ++ r) = true := by
  induction pat with
  | nil => rfl
  | cons p ps ih => simp [hasPrefixChars, ih]

theorem hasSubChars_nil_pat (s : List Char) : hasSubChars [] s = true := by
  cases s <;> simp [hasSubChars, hasPrefixChars]

theorem hasSubChars_at_head (pat r : List Char) : hasSubChars pat (pat ++ r) = true := by
  cases pat with
  | nil => exact hasSubChars_nil_pat r
  | cons p ps =>
    have := hasPrefixChars_self_append (p :: ps) r
    simp only [List.cons_append] at this ⊢
    simp [hasSubChars, this]

theorem hasSubChars_middle (x pat r : List Char) :
    hasSubChars pat (x ++ (pat ++ r)) = true := by
  induction x with
  | nil => simpa using hasSubChars_at_head pat r
  | cons c cs ih =>
    cases pat with
    | nil => exact hasSubChars_nil_pat _
    | cons p ps =>
      rw [List.cons_append, hasSubChars, ih]
      simp

theorem strContainsSub_middle (a b c : String) :
    strContainsSub (a ++ b ++ c) b = true := by
  show hasSubChars b.data (a ++ b ++ c).data = true
  have hdata : (a ++ b ++ c).data = a.data ++ (b.data ++ c.data) := by
    simp [String.data_append, List.append_assoc]
  rw [hdata]
  exact hasSubChars_middle a.data b.data c.data

theorem strContainsSub_middle4 (a b c d : String) :
    strContainsSub (a ++ b ++ c ++ d) b = true := by
  show hasSubChars b.data (a ++ b ++ c ++ d).data = true
  have hdata : (a ++ b ++ c ++ d).data = a.data ++ (b.data ++ (c.data ++ d.data)) := by
    simp [String.data_append, List.append_assoc]
  rw [hdata]
  exact hasSubChars_middle a.data b.data (c.data ++ d.data)

theorem strContainsSub_right (a b : String) :
    strContainsSub (a ++ b) b = true := by
  show hasSubChars b.data (a ++ b).data = true
  have hdata : (a ++ b).data = a.data ++ (b.data ++ []) := by
    simp [String.data_append]
  rw [hdata]
  exact hasSubChars_middle a.data b.data []

/-! ## Claims about the probe engine -/

/-- C1: for every HTTP response received by the probe, a 401 status yields
`{success := false}` with the invalid-credential message; a 403 status
yields `{success := true}` exactly when the body carries a bot-challenge
marker and the invalid-credential failure otherwise; every other status
yields `{success := true}`. -/
theorem probe_status_classification (args : ProbeArgs) (status : Nat) (body : String) :
    (status = 401 →
      probeConnection args (.response status body)
        = { success := false, error := some invalidKeyMsg })
    ∧ (status = 403 → isChallengeBody body = true →
      probeConnection args (.response status body) = { success := true, error := none })
    ∧ (status = 403 → isChallengeBody body = false →
      probeConnection args (.response status body)
        = { success := false, error := some invalidKeyMsg })
    ∧ (status ≠ 401 → status ≠ 403 →
      probeConnection args (.response status body) = { success := true, error := none }) := by
  refine ⟨fun h => by simp [probeConnection, h],
    fun h hc => by simp [probeConnection, h, hc],
    fun h hc => by simp [probeConnection, h, hc],
    fun h1 h2 => by simp [probeConnection, h1, h2]⟩

/-- Witness for `probe_status_classification` at concrete statuses and
bodies. -/
theorem probe_status_classification_witness :
    probeConnection ⟨"k", none, 1000⟩ (.response 401 "")
      = { success := false, error := some invalidKeyMsg }
    ∧ probeConnection ⟨"k", none, 1000⟩ (.response 403 "<html>Just a moment...</html>")
      = { success := true, error := none }
    ∧ probeConnection ⟨"k", none, 1000⟩ (.response 403 "denied")
      = { success := false, error := some invalidKeyMsg }
    ∧ probeConnection ⟨"k", none, 1000⟩ (.response 500 "")
      = { success := true, error := none } :=
  ⟨(probe_status_classification ⟨"k", none, 1000⟩ 401 "").1 rfl,
   (probe_status_classification ⟨"k", none, 1000⟩ 403 "<html>Just a moment...</html>").2.1
     rfl (by decide),
   (probe_status_classification ⟨"k", none, 1000⟩ 403 "denied").2.2.1 rfl (by decide),
   (probe_status_classification ⟨"k", none, 1000⟩ 500 "").2.2.2 (by decide) (by decide)⟩

/-- C5: the probe never throws - every transport-error outcome yields a
terminal failure value: an abort (the fired timeout) yields the
connection-test-timed-out message, and any other transport error yields a
message that contains both the effective endpoint and the raw error
text. -/
theorem probe_transport_errors (args : ProbeArgs) (msg : String) :
    (probeConnection args (.failure msg)).success = false
    ∧ (isAbortMessage msg = true →
        probeConnection args (.failure msg)
          = { success := false, error := some (timeoutMessage args.baseUrl) })
    ∧ (isAbortMessage msg = false →
        probeConnection args (.failure msg)
          = { success := false, error := some (transportErrorMessage args.baseUrl msg) }
        ∧ strContainsSub (transportErrorMessage args.baseUrl msg)
            (effectiveBase args.baseUrl) = true
        ∧ strContainsSub (transportErrorMessage args.baseUrl msg) msg = true) := by
  refine ⟨?_, fun h => by simp [probeConnection, h], fun h => ⟨by simp [probeConnection, h], ?_, ?_⟩⟩
  · cases h : isAbortMessage msg <;> simp [probeConnection, h]
  · exact strContainsSub_middle4 "无法连接到 " (effectiveBase args.baseUrl) ": " msg
  · exact strContainsSub_right ("无法连接到 " ++ effectiveBase args.baseUrl ++ ": ") msg

/-- Witness for `probe_transport_errors` at a concrete abort message and a
concrete transport-error message. -/
theorem probe_transport_errors_witness :
    probeConnection ⟨"k", some "https://h.example", 1000⟩
        (.failure "The operation was aborted")
      = { success := false, error := some (timeoutMessage (some "https://h.example")) }
    ∧ probeConnection ⟨"k", some "https://h.example", 1000⟩ (.failure "ECONNREFUSED")
      = { success := false,
          error := some (transportErrorMessage (some "https://h.example") "ECONNREFUSED") } :=
  ⟨(probe_transport_errors ⟨"k", some "https://h.example", 1000⟩
      "The operation was aborted").2.1 (by decide),
   ((probe_transport_errors ⟨"k", some "https://h.example", 1000⟩ "ECONNREFUSED").2.2
      (by decide)).1⟩

/-- C10: when the endpoint override is absent, empty, or whitespace-only,
the probe targets the provider default endpoint, and the probe URL is that
default with the canonical `/v1/messages` path appended (no trailing slash
to strip and no `/v1` segment to duplicate there). -/
theorem probe_default_endpoint (b : Option String) (h : jsTrim (b.getD "") = "") :
    effectiveBase b = defaultPiBase
    ∧ probeUrl b = "https://api.pi-ai.workers.dev/v1/messages" := by
  have h1 : effectiveBase b = defaultPiBase := by simp [effectiveBase, h]
  refine ⟨h1, ?_⟩
  simp only [probeUrl, h1]
  decide

/-- Witness for `probe_default_endpoint` at a whitespace-only override. -/
theorem probe_default_endpoint_witness :
    effectiveBase (some "   ") = defaultPiBase
    ∧ probeUrl (some "   ") = "https://api.pi-ai.workers.dev/v1/messages" :=
  probe_default_endpoint (some "   ") (by decide)

/-! ## Claims about the Copilot dynamic listing -/

theorem restoreCopilotEnv_eq (env0 e : Option String) :
    restoreCopilotEnv env0 e = env0 := by
  cases env0 <;> rfl

/-- C3: whatever the prior state of the `COPILOT_GITHUB_TOKEN` environment
variable and whatever the outcomes of starting the client and listing
models, the variable holds exactly its prior value after
`fetchCopilotModels` returns or throws; in particular an absent prior
value ends absent (deleted), never the string `"undefined"`. -/
theorem copilot_env_restored (accessToken : String) (env0 : Option String)
    (startResult : Except String Unit) (listResult : Except String (List RemoteModel))
    (stopResult : Except String Unit) :
    (fetchCopilotModelsRun accessToken env0 startResult listResult stopResult).2 = env0
    ∧ (env0 = none →
        (fetchCopilotModelsRun accessToken env0 startResult listResult stopResult).2 = none) := by
  have hmain :
      (fetchCopilotModelsRun accessToken env0 startResult listResult stopResult).2 = env0 := by
    cases startResult with
    | error e => simp [fetchCopilotModelsRun, restoreCopilotEnv_eq]
    | ok u =>
      cases listResult with
      | error e => simp [fetchCopilotModelsRun, restoreCopilotEnv_eq]
      | ok ms =>
        simp only [fetchCopilotModelsRun]
        split
        · exact restoreCopilotEnv_eq env0 _
        · split
          · exact restoreCopilotEnv_eq env0 _
          · exact restoreCopilotEnv_eq env0 _
  exact ⟨hmain, fun h => h ▸ hmain⟩

/-- Witness for `copilot_env_restored`: with no prior value, a failed
listing leaves the variable deleted. -/
theorem copilot_env_restored_witness :
    (fetchCopilotModelsRun "tok" none (.ok ()) (.error "listing timed out") (.ok ())).2
      = none :=
  (copilot_env_restored "tok" none (.ok ()) (.error "listing timed out") (.ok ())).2 rfl

/-- C9: a startup or listing failure on the device-code listing path is
propagated unchanged to the caller after cleanup (the token environment is
restored), and the outcome of `client.stop()` - success or failure - is
universally quantified here because the source swallows it: it never
replaces or suppresses the original error. -/
theorem copilot_error_propagation (accessToken : String) (env0 : Option String)
    (e : String) (listResult : Except String (List RemoteModel))
    (stopResult : Except String Unit) :
    (fetchCopilotModelsRun accessToken env0 (.error e) listResult stopResult).1
      = .error e
    ∧ (fetchCopilotModelsRun accessToken env0 (.ok ()) (.error e) stopResult).1
      = .error e
    ∧ (fetchCopilotModelsRun accessToken env0 (.error e) listResult stopResult).2 = env0
    ∧ (fetchCopilotModelsRun accessToken env0 (.ok ()) (.error e) stopResult).2 = env0 := by
  refine ⟨rfl, rfl, ?_, ?_⟩ <;> simp [fetchCopilotModelsRun, restoreCopilotEnv_eq]

/-- C8 counterexample: a model whose policy state is `"unconfigured"` is
not explicitly disabled, so the claim keeps it, but the source filter
(`!m.policy || m.policy.state === 'enabled'`) drops it; with it as the
only listed model the whole call fails instead of returning it. -/
theorem copilot_filter_counterexample :
    claimKeep { id := "model-a", name := "Model A", supportedReasoningEfforts := none,
                policy := some { state := "unconfigured" } } = true
    ∧ keepModel { id := "model-a", name := "Model A", supportedReasoningEfforts := none,
                  policy := some { state := "unconfigured" } } = false
    ∧ ([{ id := "model-a", name := "Model A", supportedReasoningEfforts := none,
          policy := some { state := "unconfigured" } }] : List RemoteModel).filter keepModel
      = []
    ∧ (fetchCopilotModelsRun "tok" none (.ok ()) (.ok
        [{ id := "model-a", name := "Model A", supportedReasoningEfforts := none,
           policy := some { state := "unconfigured" } }]) (.ok ())).1
      = .error "No enabled models found. Enable models in your GitHub Copilot settings." := by
  refine ⟨by decide, by decide, by decide, ?_⟩
  rfl

/-- C8 (amended): the Copilot listing keeps exactly the models whose
policy is absent or whose policy state is exactly `"enabled"` (any other
state, not just `"disabled"`, is dropped); each surviving descriptor gets
the fixed 200000-token context window and a thinking flag that is true iff
the remote entry advertises a non-empty reasoning-effort list. -/
theorem copilot_model_mapping (accessToken : String) (env0 : Option String)
    (stopResult : Except String Unit) (ms : List RemoteModel)
    (res : List ModelDefinition) (envF : Option String)
    (h : fetchCopilotModelsRun accessToken env0 (.ok ()) (.ok ms) stopResult
          = (.ok res, envF)) :
    res = (ms.filter keepModel).map toModelDefinition
    ∧ (∀ m : RemoteModel,
        keepModel m = true ↔ (m.policy = none ∨ ∃ p, m.policy = some p ∧ p.state = "enabled"))
    ∧ (∀ d ∈ res, d.contextWindow = 200000)
    ∧ (∀ m : RemoteModel,
        (toModelDefinition m).supportsThinking = some true ↔
          ∃ l, m.supportedReasoningEfforts = some l ∧ l ≠ []) := by
  have hres : res = (ms.filter keepModel).map toModelDefinition := by
    simp only [fetchCopilotModelsRun] at h
    split at h
    · simp at h
    · split at h
      · simp at h
      · have h1 := (Prod.mk.injEq _ _ _ _ ▸ h).1
        exact (Except.ok.injEq _ _ ▸ h1.symm)
  refine ⟨hres, ?_, ?_, ?_⟩
  · intro m
    cases hp : m.policy with
    | none => simp [keepModel, hp]
    | some p => simp [keepModel, hp]
  · intro d hd
    rw [hres] at hd
    obtain ⟨m, _, rfl⟩ := List.mem_map.mp hd
    rfl
  · intro m
    cases hs : m.supportedReasoningEfforts with
    | none => simp [toModelDefinition, reasoningFlag, hs]
    | some l =>
      simp [toModelDefinition, reasoningFlag, hs, List.length_pos]

/-- Witness for `copilot_model_mapping` on a concrete successful listing. -/
theorem copilot_model_mapping_witness :
    ([{ id := "gpt-x", name := "GPT X", shortName := "GPT X", description := "",
        provider := "pi", contextWindow := 200000, supportsThinking := some true }]
      : List ModelDefinition)
      = (([{ id := "gpt-x", name := "GPT X",
             supportedReasoningEfforts := some ["low", "high"], policy := none }]
          : List RemoteModel).filter keepModel).map toModelDefinition :=
  (copilot_model_mapping "tok" none (.ok ())
    [{ id := "gpt-x", name := "GPT X", supportedReasoningEfforts := some ["low", "high"],
       policy := none }]
    [{ id := "gpt-x", name := "GPT X", shortName := "GPT X", description := "",
       provider := "pi", contextWindow := 200000, supportsThinking := some true }]
    none rfl).1

/-! ## Claims about `piDriver.fetchModels` -/

/-- C2 counterexample: a custom-endpoint connection whose model list is
empty makes `fetchModels` return the empty list as a success value - the
custom-endpoint passthrough has no `NoModelsFound` check. -/
theorem fetchModels_empty_custom_counterexample :
    fetchModels
      { piAuthProvider := none, baseUrl := some "https://example.com", models := some [] }
      { oauthAccessToken := none } []
      = .returnModels [] := by
  decide

/-- C2 (amended): the static-registry branch of `fetchModels` throws the
`No Pi models found ...` error on an empty lookup, and the Copilot dynamic
listing throws (`No models returned ...` on an empty listing, `No enabled
models found ...` on a fully-disabled one) before returning an empty
list, so off the custom-endpoint passthrough no empty list is ever a
success value; the custom-endpoint branch, however, returns the user's
existing list as-is even when it is empty. -/
theorem fetchModels_empty_handling
    (conn : Connection) (creds : Credentials) (registryModels : List ModelDefinition)
    (accessToken : String) (env0 : Option String)
    (listed : List RemoteModel) (stopResult : Except String Unit) :
    (¬(conn.piAuthProvider = some "github-copilot"
        ∧ optStrTruthy creds.oauthAccessToken = true) →
      optStrTruthy conn.baseUrl = false → registryModels = [] →
      fetchModels conn creds registryModels
        = .throwNoModels ("No Pi models found for provider: "
            ++ conn.piAuthProvider.getD "all"))
    ∧ (listed = [] →
        (fetchCopilotModelsRun accessToken env0 (.ok ()) (.ok listed) stopResult).1
          = .error "No models returned from Copilot API.")
    ∧ (listed ≠ [] → listed.filter keepModel = [] →
        (fetchCopilotModelsRun accessToken env0 (.ok ()) (.ok listed) stopResult).1
          = .error "No enabled models found. Enable models in your GitHub Copilot settings.")
    ∧ (∀ res envF,
        fetchCopilotModelsRun accessToken env0 (.ok ()) (.ok listed) stopResult
          = (.ok res, envF) → res ≠ [])
    ∧ (¬(conn.piAuthProvider = some "github-copilot"
          ∧ optStrTruthy creds.oauthAccessToken = true) →
        optStrTruthy conn.baseUrl = true →
        fetchModels conn creds registryModels
          = .returnModels ((conn.models.getD []).map upgradeEntry))
    ∧ (optStrTruthy conn.baseUrl = false →
        ∀ ms, fetchModels conn creds registryModels = .returnModels ms → ms ≠ []) := by
  refine ⟨?_, ?_, ?_, ?_, ?_, ?_⟩
  · intro hcop hbase hreg
    subst hreg
    simp [fetchModels, hcop, hbase]
  · intro hl
    subst hl
    rfl
  · intro hne hfilter
    cases listed with
    | nil => exact absurd rfl hne
    | cons a as =>
      simp [fetchCopilotModelsRun, hfilter]
  · intro res envF h
    simp only [fetchCopilotModelsRun] at h
    split at h
    · simp at h
    · split at h
      · simp at h
      · rename_i hne
        have h1 := (Prod.mk.injEq _ _ _ _ ▸ h).1
        have h2 : res = (listed.filter keepModel).map toModelDefinition :=
          (Except.ok.injEq _ _ ▸ h1.symm)
        rw [h2]
        intro hnil
        rw [List.map_eq_nil_iff] at hnil
        rw [hnil] at hne
        simp at hne
  · intro hcop hbase
    simp [fetchModels, hcop, hbase]
  · intro hbase ms h
    by_cases hc : conn.piAuthProvider = some "github-copilot"
        ∧ optStrTruthy creds.oauthAccessToken = true
    · simp [fetchModels, hc] at h
    · simp only [fetchModels, if_neg hc, hbase, Bool.false_eq_true, if_false] at h
      split at h
      · simp at h
      · rename_i hr
        cases hemp : registryModels.isEmpty with
        | true => exact absurd hemp hr
        | false =>
          have := (FetchAction.returnModels.injEq _ _ ▸ h).symm
          rw [this]
          intro hnil
          rw [hnil] at hemp
          simp at hemp

/-- Witness for `fetchModels_empty_handling`: an empty registry lookup
throws the exact `No Pi models found` message, an empty and a
fully-disabled Copilot listing throw their exact messages, a concrete
registry hit off the custom path is non-empty, and a concrete empty
custom-endpoint passthrough returns the empty list as-is. -/
theorem fetchModels_empty_handling_witness :
    fetchModels { piAuthProvider := none, baseUrl := none, models := none }
      { oauthAccessToken := none } []
      = .throwNoModels "No Pi models found for provider: all"
    ∧ (fetchCopilotModelsRun "tok" none (.ok ()) (.ok []) (.ok ())).1
      = .error "No models returned from Copilot API."
    ∧ (fetchCopilotModelsRun "tok" none (.ok ())
        (.ok [{ id := "m", name := "M", supportedReasoningEfforts := none,
                policy := some { state := "disabled" } }]) (.ok ())).1
      = .error "No enabled models found. Enable models in your GitHub Copilot settings."
    ∧ ([{ id := "m1", name := "M1", shortName := "M1", description := "",
          provider := "pi", contextWindow := 200000, supportsThinking := none }]
        : List ModelDefinition) ≠ []
    ∧ fetchModels
        { piAuthProvider := none, baseUrl := some "https://example.com", models := some [] }
        { oauthAccessToken := none } []
        = .returnModels [] :=
  ⟨(fetchModels_empty_handling { piAuthProvider := none, baseUrl := none, models := none }
      { oauthAccessToken := none } [] "tok" none [] (.ok ())).1 (by decide) rfl rfl,
   (fetchModels_empty_handling { piAuthProvider := none, baseUrl := none, models := none }
      { oauthAccessToken := none } [] "tok" none [] (.ok ())).2.1 rfl,
   (fetchModels_empty_handling { piAuthProvider := none, baseUrl := none, models := none }
      { oauthAccessToken := none } [] "tok" none
      [{ id := "m", name := "M", supportedReasoningEfforts := none,
         policy := some { state := "disabled" } }] (.ok ())).2.2.1
      (by decide) (by decide),
   (fetchModels_empty_handling { piAuthProvider := none, baseUrl := none, models := none }
      { oauthAccessToken := none }
      [{ id := "m1", name := "M1", shortName := "M1", description := "",
         provider := "pi", contextWindow := 200000, supportsThinking := none }]
      "tok" none [] (.ok ())).2.2.2.2.2 rfl _ (by decide),
   by
    have h := (fetchModels_empty_handling
      { piAuthProvider := none, baseUrl := some "https://example.com", models := some [] }
      { oauthAccessToken := none } [] "tok" none [] (.ok ())).2.2.2.2.1
      (by decide) (by decide)
    simpa using h⟩

/-- C7 counterexample: a connection that is simultaneously a
`github-copilot` device-code connection with an OAuth access token and a
custom-endpoint connection with an existing model list does not get the
passthrough: the Copilot branch wins and performs the dynamic network
listing instead. -/
theorem fetchModels_custom_overridden_counterexample :
    fetchModels
      { piAuthProvider := some "github-copilot", baseUrl := some "https://my.endpoint",
        models := some [.str "my-model"] }
      { oauthAccessToken := some "tok" } []
      = .callCopilot "tok"
    ∧ FetchAction.callCopilot "tok"
      ≠ .returnModels (([ModelEntry.str "my-model"]).map upgradeEntry) := by
  decide

/-- C7 (amended): for every connection with a truthy custom endpoint and
an existing model list that does not take the Copilot dynamic branch,
`fetchModels` returns the existing list without any network action
(`returnModels` is a pure value): bare strings become descriptors with the
same identifier and name and the generic 128000-token context window, and
existing descriptors pass through unchanged. -/
theorem fetchModels_custom_passthrough
    (conn : Connection) (creds : Credentials) (registryModels : List ModelDefinition)
    (entries : List ModelEntry)
    (hnotcop : ¬(conn.piAuthProvider = some "github-copilot"
        ∧ optStrTruthy creds.oauthAccessToken = true))
    (hbase : optStrTruthy conn.baseUrl = true)
    (hmodels : conn.models = some entries) :
    fetchModels conn creds registryModels = .returnModels (entries.map upgradeEntry)
    ∧ (∀ s, upgradeEntry (.str s)
        = { id := s, name := s, shortName := s, description := "Custom model",
            provider := "pi", contextWindow := 128000, supportsThinking := none })
    ∧ (∀ d, upgradeEntry (.defn d) = d) := by
  refine ⟨?_, fun s => rfl, fun d => rfl⟩
  simp [fetchModels, hnotcop, hbase, hmodels]

/-- Witness for `fetchModels_custom_passthrough` on a concrete
custom-endpoint connection with one bare-string model. -/
theorem fetchModels_custom_passthrough_witness :
    fetchModels
      { piAuthProvider := none, baseUrl := some "https://my.endpoint",
        models := some [.str "my-model"] }
      { oauthAccessToken := none } []
      = .returnModels ([ModelEntry.str "my-model"].map upgradeEntry) :=
  (fetchModels_custom_passthrough
    { piAuthProvider := none, baseUrl := some "https://my.endpoint",
      models := some [.str "my-model"] }
    { oauthAccessToken := none } [] [.str "my-model"]
    (by decide) (by decide) rfl).1

/-! ## Claims about `piDriver.validateStoredConnection` -/

/-- C6: a key-style stored connection with no key on record (a null or
empty credential-store answer) fails with the credential-not-found error
and triggers no network call (the result is a `finish`, not a
`probeCheck`); with a key on record it issues the probe with a 10000 ms
budget, shorter than the 20000 ms default budget of the interactive
connection test. -/
theorem validateStored_key_handling (conn : StoredConnection) (storedKey : Option String)
    (hkey : conn.authType = "api_key" ∨ conn.authType = "api_key_with_endpoint") :
    ((storedKey = none ∨ storedKey = some "") →
      validateStoredConnection conn storedKey
        = .finish { success := false, error := some credentialNotFoundMsg })
    ∧ (∀ k, storedKey = some k → ¬(k = "") →
        validateStoredConnection conn storedKey = .probeCheck k conn.baseUrl 10000
        ∧ 10000 < interactiveTestTimeout none) := by
  constructor
  · rintro (rfl | rfl) <;> simp [validateStoredConnection, hkey]
  · rintro k rfl hk
    refine ⟨?_, by decide⟩
    simp [validateStoredConnection, hkey, hk]

/-- Witness for `validateStored_key_handling`: a key-style connection with
no stored key fails without probing, and one with a stored key probes with
the shorter 10000 ms budget. -/
theorem validateStored_key_handling_witness :
    validateStoredConnection { authType := "api_key", baseUrl := none } none
      = .finish { success := false, error := some credentialNotFoundMsg }
    ∧ validateStoredConnection { authType := "api_key", baseUrl := none } (some "sk-1")
      = .probeCheck "sk-1" none 10000
    ∧ 10000 < interactiveTestTimeout none :=
  ⟨(validateStored_key_handling { authType := "api_key", baseUrl := none } none
      (Or.inl rfl)).1 (Or.inl rfl),
   ((validateStored_key_handling { authType := "api_key", baseUrl := none } (some "sk-1")
      (Or.inl rfl)).2 "sk-1" rfl (by decide)).1,
   ((validateStored_key_handling { authType := "api_key", baseUrl := none } (some "sk-1")
      (Or.inl rfl)).2 "sk-1" rfl (by decide)).2⟩

end PiDriver

namespace ProvidersSettings

open PiDriver

/-! ## Claims about the settings page's edit handler -/

/-- C4 counterexample: on an existing key-style connection, `handleEdit`
seeds the credentials step's `apiKey` with exactly the raw secret the
credential store returned - not a redacted or masked placeholder. -/
theorem handleEdit_raw_key_counterexample :
    (handleEdit
      { slug := "my-conn", name := "My Conn", baseUrl := some "https://my.endpoint",
        defaultModel := some "m-default", piAuthProvider := some "preset-a",
        models := some [.str "m1", .str "m2"], providerType := some "pi",
        legacyType := none }
      (some "sk-raw-secret-123")).editValues.apiKey
      = some "sk-raw-secret-123" := by
  rfl

/-- C4 (amended): entering edit mode seeds the credentials step with the
connection's current endpoint, display name, default-model string (the
comma-joined model identifiers, falling back to the stored default model),
sub-provider tag, and the raw stored API key exactly as the credential
store returned it (redaction, if any, is a display concern); the
connection's own slug is passed to the wizard so re-submission edits
rather than duplicates, and `pi`-family connections jump to the
`pi_api_key` credentials step. -/
theorem handleEdit_seeds_values (conn : ConnectionView) (storedKey : Option String) :
    (handleEdit conn storedKey).editValues.apiKey = storedKey
    ∧ (handleEdit conn storedKey).editValues.name = conn.name
    ∧ (handleEdit conn storedKey).editValues.baseUrl = conn.baseUrl
    ∧ (handleEdit conn storedKey).editingSlug = conn.slug
    ∧ (∀ entries, conn.models = some entries → ¬(joinComma (entries.map entryId) = "") →
        (handleEdit conn storedKey).editValues.connectionDefaultModel
          = joinComma (entries.map entryId))
    ∧ (conn.models = none → ∀ d, conn.defaultModel = some d →
        (handleEdit conn storedKey).editValues.connectionDefaultModel = d)
    ∧ (∀ p, conn.piAuthProvider = some p → ¬(p = "") →
        (handleEdit conn storedKey).editValues.activePreset = some p)
    ∧ (orTruthy conn.providerType conn.legacyType = some "pi" →
        (handleEdit conn storedKey).method = "pi_api_key") := by
  refine ⟨rfl, rfl, rfl, rfl, ?_, ?_, ?_, ?_⟩
  · intro entries hm hj
    simp [handleEdit, modelStrOf, hm, hj]
  · intro hm d hd
    simp [handleEdit, modelStrOf, hm, hd]
  · intro p hp hpne
    simp [handleEdit, hp, hpne]
  · intro hp
    simp [handleEdit, getApiKeyMethodForConnection, hp]

/-- Witness for `handleEdit_seeds_values` on a concrete existing
connection. -/
theorem handleEdit_seeds_values_witness :
    (handleEdit
      { slug := "conn-1", name := "Conn One", baseUrl := some "https://h.example",
        defaultModel := some "dm", piAuthProvider := some "preset-a",
        models := some [.str "m1", .str "m2"], providerType := some "pi",
        legacyType := none }
      (some "sk-1")).editValues.connectionDefaultModel = joinComma ["m1", "m2"]
    ∧ (handleEdit
        { slug := "conn-1", name := "Conn One", baseUrl := some "https://h.example",
          defaultModel := some "dm", piAuthProvider := some "preset-a",
          models := some [.str "m1", .str "m2"], providerType := some "pi",
          legacyType := none }
        (some "sk-1")).editValues.activePreset = some "preset-a"
    ∧ (handleEdit
        { slug := "conn-1", name := "Conn One", baseUrl := some "https://h.example",
          defaultModel := some "dm", piAuthProvider := some "preset-a",
          models := some [.str "m1", .str "m2"], providerType := some "pi",
          legacyType := none }
        (some "sk-1")).method = "pi_api_key" :=
  ⟨by
    have h := (handleEdit_seeds_values
      { slug := "conn-1", name := "Conn One", baseUrl := some "https://h.example",
        defaultModel := some "dm", piAuthProvider := some "preset-a",
        models := some [.str "m1", .str "m2"], providerType := some "pi",
        legacyType := none } (some "sk-1")).2.2.2.2.1 [.str "m1", .str "m2"] rfl (by decide)
    simpa using h,
   (handleEdit_seeds_values
      { slug := "conn-1", name := "Conn One", baseUrl := some "https://h.example",
        defaultModel := some "dm", piAuthProvider := some "preset-a",
        models := some [.str "m1", .str "m2"], providerType := some "pi",
        legacyType := none } (some "sk-1")).2.2.2.2.2.2.1 "preset-a" rfl (by decide),
   (handleEdit_seeds_values
      { slug := "conn-1", name := "Conn One", baseUrl := some "https://h.example",
        defaultModel := some "dm", piAuthProvider := some "preset-a",
        models := some [.str "m1", .str "m2"], providerType := some "pi",
        legacyType := none } (some "sk-1")).2.2.2.2.2.2.2 rfl⟩

end ProvidersSettings
